import Mathlib

/-!
Verification of `examples/launched-by-extension.py` from the
vscode-sockpuppet-extension repository.

The script is embedded shallowly: a run is a pure function of
  * the value of the environment variable `VSCODE_SOCKPUPPET_PIPE`
    (`none` when absent), and
  * the remote host's response to each interaction (a result, or a raised
    exception carried as its description string),
returning the trace of observable events (requests issued, lines printed,
session acquisition and release) together with the process exit code.
-/

namespace Sockpuppet

/-- Observable events of one run of the script: printed lines, session
acquisition/release, and the remote UI requests the script issues. -/
inductive Event where
  | print (line : String)
  | sessionOpen (pipe : String)
  | sessionClose
  | callShowInfo (message : String)
  | callGetFolders
  | callInputBox (prompt placeholder : String)
  | callCreateOutputChannel (channelName text : String) (shown : Bool)
  | callQuickPick (items : List String) (placeholder : String)
  | callStatusBar (text : String) (milliseconds : Nat)
  deriving DecidableEq

/-- The remote side of each interaction, in program order: each field is the
host's behaviour when that interaction is attempted, either a result
(`Except.ok`) or a raised exception carried as its description
(`Except.error`).  `openSession` is the outcome of acquiring the session
(connection failure raises).  `show_input_box` and `show_quick_pick` return
`none` for the user-cancelled ("no input" / "no selection") signal. -/
structure Host where
  openSession : Except String Unit
  showInfo1 : Except String Unit
  getWorkspaceFolders : Except String (List String)
  showInputBox : Except String (Option String)
  createOutputChannel : Except String Unit
  showQuickPick : Except String (Option String)
  showInfo2 : Except String Unit
  setStatusBarMessage : Except String Unit

/-- Python truthiness of an optional string, as tested by
`if not pipe_path:`, `if name:` and `if choice:`: `None` and the empty
string are falsy, every other string is truthy. -/
def pyTruthy : Option String → Bool
  | none => false
  | some s => s != ""

/-- The fixed greeting of the first `show_information_message` call. -/
def greeting : String := "Hello from Python! I was launched by another extension."

/-- Prompt of the input box. -/
def inputPrompt : String := "What\x27s your name?"

/-- Placeholder of the input box. -/
def inputPlaceholder : String := "Enter your name"

/-- Name of the output channel created by `create_output_channel`. -/
def outputChannelName : String := "Python Automation"

/-- Text written into the output channel, embedding the entered name. -/
def ocText (name : String) : String := "Hello, " ++ name ++ "! This is Python speaking.\n"

/-- The fixed three-item list offered by `show_quick_pick`. -/
def pickItems : List String := ["Option A", "Option B", "Option C"]

/-- Placeholder of the quick pick, embedding the entered name. -/
def pickPlaceholder (name : String) : String := "Hi " ++ name ++ ", choose an option"

/-- Text of the second `show_information_message`, embedding the selection. -/
def selectedMsg (choice : String) : String := "You selected: " ++ choice

/-- Text of the status-bar message. -/
def statusText : String := "Python automation completed!"

/-- Duration of the status-bar message, in milliseconds. -/
def statusMs : Nat := 5000

/-- The local completion line printed at the end of the with-block. -/
def completedLine : String := "Automation completed successfully"

/-- The `Connecting to VS Code via: <address>` line. -/
def connMsg (p : String) : String := "Connecting to VS Code via: " ++ p

/-- First line of the diagnostic when the environment variable is missing. -/
def missingLine1 : String := "Error: VSCODE_SOCKPUPPET_PIPE environment variable not set"

/-- Second line of the diagnostic when the environment variable is missing. -/
def missingLine2 : String := "This script should be launched by an extension using Sockpuppet API"

/-- The two-line diagnostic printed when the environment variable is absent
or empty. -/
def missingDiag : List Event := [Event.print missingLine1, Event.print missingLine2]

/-- The top-level error line `Error: <description>` printed by the
`except Exception as e` handler. -/
def errorLine (d : String) : String := "Error: " ++ d

/-- Python `repr` of a string, as used by an f-string embedding a list
(folder strings contain no characters needing escapes). -/
def pyReprStr (s : String) : String := "\x27" ++ s ++ "\x27"

/-- Python rendering of a list of strings inside an f-string. -/
def pyReprList (xs : List String) : String :=
  "[" ++ String.intercalate ", " (xs.map pyReprStr) ++ "]"

/-- The `Workspace folders: ...` printed line. -/
def foldersLine (xs : List String) : String := "Workspace folders: " ++ pyReprList xs

/-- The `if name:` block: create the output channel, offer the quick pick,
and, if a choice was made, show the second information message.  Returns the
events issued and whether the block completed or raised. -/
def nameBlock (h : Host) (nameOpt : Option String) : List Event × Except String Unit :=
  if pyTruthy nameOpt then
    let name := nameOpt.getD ""
    let ocEv := Event.callCreateOutputChannel outputChannelName (ocText name) true
    match h.createOutputChannel with
    | .error d => ([ocEv], .error d)
    | .ok _ =>
      let qpEv := Event.callQuickPick pickItems (pickPlaceholder name)
      match h.showQuickPick with
      | .error d => ([ocEv, qpEv], .error d)
      | .ok choiceOpt =>
        if pyTruthy choiceOpt then
          let ev2 := Event.callShowInfo (selectedMsg (choiceOpt.getD ""))
          match h.showInfo2 with
          | .error d => ([ocEv, qpEv, ev2], .error d)
          | .ok _ => ([ocEv, qpEv, ev2], .ok ())
        else ([ocEv, qpEv], .ok ())
  else ([], .ok ())

/-- The body of the `with` block: the fixed sequence of calls, stopping at
the first raised exception. -/
def body (h : Host) : List Event × Except String Unit :=
  let e1 := Event.callShowInfo greeting
  match h.showInfo1 with
  | .error d => ([e1], .error d)
  | .ok _ =>
    match h.getWorkspaceFolders with
    | .error d => ([e1, Event.callGetFolders], .error d)
    | .ok folders =>
      let pre := [e1, Event.callGetFolders, Event.print (foldersLine folders)]
      let ibEv := Event.callInputBox inputPrompt inputPlaceholder
      match h.showInputBox with
      | .error d => (pre ++ [ibEv], .error d)
      | .ok nameOpt =>
        let (nbEvs, nbRes) := nameBlock h nameOpt
        match nbRes with
        | .error d => (pre ++ ibEv :: nbEvs, .error d)
        | .ok _ =>
          let sbEv := Event.callStatusBar statusText statusMs
          match h.setStatusBarMessage with
          | .error d => (pre ++ ibEv :: nbEvs ++ [sbEv], .error d)
          | .ok _ =>
            (pre ++ ibEv :: nbEvs ++ [sbEv, Event.print completedLine], .ok ())

/-- Modelled from the spec: the `VSCodeClient` session (its constructor and
context-manager enter/exit) is a collaborator library not included in the
supplied source.  Per the spec the session is "a scoped resource ...
Acquired explicitly, released deterministically on every exit path (success,
early return, or exception)", and failure to acquire raises and surfaces to
the top-level handler, with the release path still invoked. -/
def withSession (p : String) (h : Host) (bodyRun : List Event × Except String Unit) :
    List Event × Except String Unit :=
  match h.openSession with
  | .error d => ([Event.sessionOpen p, Event.sessionClose], .error d)
  | .ok _ => (Event.sessionOpen p :: bodyRun.1 ++ [Event.sessionClose], bodyRun.2)

/-- One run of the script: from the value of `VSCODE_SOCKPUPPET_PIPE`
(`none` when absent) and the host behaviour to the event trace and the
process exit code. -/
def run (env : Option String) (h : Host) : List Event × Nat :=
  if pyTruthy env then
    let p := env.getD ""
    let (evs, res) := withSession p h (body h)
    match res with
    | .error d => (Event.print (connMsg p) :: evs ++ [Event.print (errorLine d)], 1)
    | .ok _ => (Event.print (connMsg p) :: evs, 0)
  else (missingDiag, 1)

/-- Is the event a remote UI-action request? -/
def isUICall : Event → Bool
  | .callShowInfo _ => true
  | .callGetFolders => true
  | .callInputBox _ _ => true
  | .callCreateOutputChannel _ _ _ => true
  | .callQuickPick _ _ => true
  | .callStatusBar _ _ => true
  | _ => false

/-- Is the event a `show_information_message` request? -/
def isShowInfoEv : Event → Bool
  | .callShowInfo _ => true
  | _ => false

/-- Is the event a `create_output_channel` request? -/
def isOutputChannelEv : Event → Bool
  | .callCreateOutputChannel _ _ _ => true
  | _ => false

/-- Is the event a `show_quick_pick` request? -/
def isQuickPickEv : Event → Bool
  | .callQuickPick _ _ => true
  | _ => false

/-- Is the event a `set_status_bar_message` request? -/
def isStatusBarEv : Event → Bool
  | .callStatusBar _ _ => true
  | _ => false

/-- Is the event a printed line? -/
def isPrintEv : Event → Bool
  | .print _ => true
  | _ => false

/-- Substring containment, used to state "text containing ...". -/
def containsSub (needle hay : String) : Prop := ∃ pre post, hay = pre ++ needle ++ post

/-- The host of the spec's successful mock run: folders `["/ws/a"]`,
input `"Ada"`, quick-pick selection `"Option B"`, every call succeeding. -/
def happyHost : Host :=
  { openSession := .ok ()
    showInfo1 := .ok ()
    getWorkspaceFolders := .ok ["/ws/a"]
    showInputBox := .ok (some "Ada")
    createOutputChannel := .ok ()
    showQuickPick := .ok (some "Option B")
    showInfo2 := .ok ()
    setStatusBarMessage := .ok () }

/-- The trace the spec demands of a raising-free run, stated from the spec's
wording (§4.1, §5): greeting notification, folder query (result printed),
input box, then — gated on a name being obtained — output-channel creation
and the quick pick, then — gated on a selection — the second notification,
then unconditionally the status-bar message and the local completion
message.  Per §5 and §8.3 the name result gates the later steps up to and
including the quick pick. -/
def specTrace (p : String) (folders : List String) (nameOpt choiceOpt : Option String) :
    List Event :=
  [Event.print (connMsg p), Event.sessionOpen p,
   Event.callShowInfo greeting,
   Event.callGetFolders, Event.print (foldersLine folders),
   Event.callInputBox inputPrompt inputPlaceholder]
  ++ (if pyTruthy nameOpt then
        [Event.callCreateOutputChannel outputChannelName (ocText (nameOpt.getD "")) true,
         Event.callQuickPick pickItems (pickPlaceholder (nameOpt.getD ""))]
        ++ (if pyTruthy choiceOpt then [Event.callShowInfo (selectedMsg (choiceOpt.getD ""))]
            else [])
      else [])
  ++ [Event.callStatusBar statusText statusMs, Event.print completedLine, Event.sessionClose]

/-- A host whose connection, greeting and folder query succeed, with the
input-box outcome and everything after it left as parameters. -/
def hostAfterInput (folders : List String) (inputRes : Except String (Option String))
    (oc : Except String Unit) (qp : Except String (Option String))
    (i2 sb : Except String Unit) : Host :=
  ⟨.ok (), .ok (), .ok folders, inputRes, oc, qp, i2, sb⟩

/-- A host on which every call succeeds, with the folder list, the input-box
result and the quick-pick result as parameters. -/
def okHost (folders : List String) (nameOpt choiceOpt : Option String) : Host :=
  ⟨.ok (), .ok (), .ok folders, .ok nameOpt, .ok (), .ok choiceOpt, .ok (), .ok ()⟩

/-- The gated middle of the call sequence: the output-channel and quick-pick
requests when the name is truthy, and the second notification when the
selection also is. -/
def gatedBlock (nameOpt choiceOpt : Option String) : List Event :=
  if pyTruthy nameOpt then
    [Event.callCreateOutputChannel outputChannelName (ocText (nameOpt.getD "")) true,
     Event.callQuickPick pickItems (pickPlaceholder (nameOpt.getD ""))]
    ++ (if pyTruthy choiceOpt then [Event.callShowInfo (selectedMsg (choiceOpt.getD ""))]
        else [])
  else []

/-! Reduction lemmas for Python truthiness. -/

@[simp]
theorem pyTruthy_none : pyTruthy none = false := rfl

@[simp]
theorem pyTruthy_some (s : String) : pyTruthy (some s) = (s != "") := rfl

/-! Helper lemmas: the distinguished printed lines start with distinct
characters, so none of them can coincide. -/

theorem data_append (a b : String) : (a ++ b).data = a.data ++ b.data := by
  cases a
  cases b
  rfl

theorem connMsg_head (p : String) : (connMsg p).data.head? = some 'C' := by
  cases p with
  | mk d => rfl

theorem errorLine_head (d : String) : (errorLine d).data.head? = some 'E' := by
  cases d with
  | mk l => rfl

theorem foldersLine_head (xs : List String) : (foldersLine xs).data.head? = some 'W' := by
  show ("Workspace folders: " ++ pyReprList xs).data.head? = some 'W'
  generalize pyReprList xs = q
  cases q with
  | mk l => rfl

theorem completed_ne_connMsg (p : String) : completedLine ≠ connMsg p := by
  intro he
  have h1 : (connMsg p).data.head? = some 'C' := connMsg_head p
  rw [← he] at h1
  exact absurd h1 (by decide)

theorem completed_ne_foldersLine (xs : List String) : completedLine ≠ foldersLine xs := by
  intro he
  have h1 : (foldersLine xs).data.head? = some 'W' := foldersLine_head xs
  rw [← he] at h1
  exact absurd h1 (by decide)

theorem completed_ne_errorLine (d : String) : completedLine ≠ errorLine d := by
  intro he
  have h1 : (errorLine d).data.head? = some 'E' := errorLine_head d
  rw [← he] at h1
  exact absurd h1 (by decide)

theorem connMsg_ne_missing1 (s : String) : connMsg s ≠ missingLine1 := by
  intro he
  have h1 : (connMsg s).data.head? = some 'C' := connMsg_head s
  rw [he] at h1
  exact absurd h1 (by decide)

theorem connMsg_ne_missing2 (s : String) : connMsg s ≠ missingLine2 := by
  intro he
  have h1 : (connMsg s).data.head? = some 'C' := connMsg_head s
  rw [he] at h1
  exact absurd h1 (by decide)

/-- C1: when `VSCODE_SOCKPUPPET_PIPE` is absent or bound to the empty
string, the program prints exactly the two-line diagnostic, exits with
code 1, and never opens (or closes) a session: no session event and no
UI request appears in the trace. -/
theorem env_missing_no_session (env : Option String) (h : Host)
    (he : env = none ∨ env = some "") :
    run env h = ([Event.print missingLine1, Event.print missingLine2], 1) ∧
    (∀ q, Event.sessionOpen q ∉ (run env h).1) ∧
    (run env h).1.filter isUICall = [] := by
  rcases he with rfl | rfl <;>
  · refine ⟨rfl, ?_, rfl⟩
    intro q hq
    simp [run, pyTruthy, missingDiag] at hq

/-- Witness for C1 at the concrete input `env = none`. -/
theorem env_missing_no_session_witness :
    run none happyHost = ([Event.print missingLine1, Event.print missingLine2], 1) :=
  (env_missing_no_session none happyHost (Or.inl rfl)).1

/-- C2: on the spec's mock host (folders `["/ws/a"]`, input `"Ada"`,
selection `"Option B"`, no call raising) the program prints the folder
list, requests output-channel creation with text containing
`"Hello, Ada!"`, requests a notification containing `"Option B"`, requests
a status-bar message with duration 5000 ms, and exits with code 0. -/
theorem happy_run (p : String) (hp : p ≠ "") :
    (run (some p) happyHost).2 = 0 ∧
    Event.print (foldersLine ["/ws/a"]) ∈ (run (some p) happyHost).1 ∧
    (∃ t shown, Event.callCreateOutputChannel outputChannelName t shown ∈
        (run (some p) happyHost).1 ∧ containsSub "Hello, Ada!" t) ∧
    (∃ m, Event.callShowInfo m ∈ (run (some p) happyHost).1 ∧ containsSub "Option B" m) ∧
    (∃ t, Event.callStatusBar t 5000 ∈ (run (some p) happyHost).1) := by
  have hrun : run (some p) happyHost =
      (Event.print (connMsg p) :: Event.sessionOpen p ::
        Event.callShowInfo greeting :: Event.callGetFolders ::
        Event.print (foldersLine ["/ws/a"]) ::
        Event.callInputBox inputPrompt inputPlaceholder ::
        Event.callCreateOutputChannel outputChannelName (ocText "Ada") true ::
        Event.callQuickPick pickItems (pickPlaceholder "Ada") ::
        Event.callShowInfo (selectedMsg "Option B") ::
        Event.callStatusBar statusText statusMs ::
        Event.print completedLine :: [Event.sessionClose], 0) := by
    simp [run, withSession, body, nameBlock, happyHost, hp]
  rw [hrun]
  refine ⟨rfl, by simp, ⟨ocText "Ada", true, by simp, "", " This is Python speaking.\n", by decide⟩,
    ⟨selectedMsg "Option B", by simp, "You selected: ", "", by decide⟩,
    ⟨statusText, by simp [statusMs]⟩⟩

/-- Witness for C2 at the concrete address `"addr"`. -/
theorem happy_run_witness : (run (some "addr") happyHost).2 = 0 :=
  (happy_run "addr" (by decide)).1

/-- C3: when the input box returns the cancelled signal, neither
output-channel creation nor the quick pick is ever requested (whatever
those calls would have returned), the status-bar request is still issued,
and the program exits with code 0. -/
theorem cancelled_input_skips (p : String) (hp : p ≠ "") (folders : List String)
    (oc : Except String Unit) (qp : Except String (Option String)) (i2 : Except String Unit) :
    (run (some p) (hostAfterInput folders (.ok none) oc qp i2 (.ok ()))).1.filter
        isOutputChannelEv = [] ∧
    (run (some p) (hostAfterInput folders (.ok none) oc qp i2 (.ok ()))).1.filter
        isQuickPickEv = [] ∧
    Event.callStatusBar statusText 5000 ∈
      (run (some p) (hostAfterInput folders (.ok none) oc qp i2 (.ok ()))).1 ∧
    (run (some p) (hostAfterInput folders (.ok none) oc qp i2 (.ok ()))).2 = 0 := by
  simp [run, withSession, body, nameBlock, hostAfterInput, hp, statusMs,
    isOutputChannelEv, isQuickPickEv, List.filter]

/-- Witness for C3 at concrete inputs. -/
theorem cancelled_input_skips_witness :
    (run (some "addr") (hostAfterInput ["/ws/a"] (.ok none) (.ok ()) (.ok none)
        (.ok ()) (.ok ()))).2 = 0 :=
  (cancelled_input_skips "addr" (by decide) ["/ws/a"] (.ok ()) (.ok none) (.ok ())).2.2.2

/-- C4: when the input box returns a (truthy) name but the quick pick
returns the cancelled signal, the output channel is created, no second
information message is ever requested (the only notification in the trace
is the fixed greeting), the status-bar request is still issued, and the
program exits with code 0. -/
theorem cancelled_pick_skips (p : String) (hp : p ≠ "") (name : String) (hname : name ≠ "")
    (folders : List String) (i2 : Except String Unit) :
    (∃ shown, Event.callCreateOutputChannel outputChannelName (ocText name) shown ∈
      (run (some p) (hostAfterInput folders (.ok (some name)) (.ok ()) (.ok none) i2
        (.ok ()))).1) ∧
    (run (some p) (hostAfterInput folders (.ok (some name)) (.ok ()) (.ok none) i2
        (.ok ()))).1.filter isShowInfoEv = [Event.callShowInfo greeting] ∧
    Event.callStatusBar statusText 5000 ∈
      (run (some p) (hostAfterInput folders (.ok (some name)) (.ok ()) (.ok none) i2
        (.ok ()))).1 ∧
    (run (some p) (hostAfterInput folders (.ok (some name)) (.ok ()) (.ok none) i2
        (.ok ()))).2 = 0 := by
  refine ⟨⟨true, ?_⟩, ?_, ?_, ?_⟩ <;>
    simp [run, withSession, body, nameBlock, hostAfterInput, hp, hname, statusMs,
      isShowInfoEv, List.filter]

/-- Witness for C4 at concrete inputs. -/
theorem cancelled_pick_skips_witness :
    (run (some "addr") (hostAfterInput ["/ws/a"] (.ok (some "Ada")) (.ok ()) (.ok none)
        (.ok ()) (.ok ()))).2 = 0 :=
  (cancelled_pick_skips "addr" (by decide) "Ada" (by decide) ["/ws/a"] (.ok ())).2.2.2

/-- C5: when session acquisition raises (whatever the host would have
answered to the later calls), no UI-action request is ever issued, the
session-release path is still invoked, the error is printed as
`Error: <description>`, and the program exits with code 1. -/
theorem open_failure_releases (p : String) (hp : p ≠ "") (d : String) (h : Host)
    (ho : h.openSession = .error d) :
    (run (some p) h).1.filter isUICall = [] ∧
    Event.sessionClose ∈ (run (some p) h).1 ∧
    Event.print (errorLine d) ∈ (run (some p) h).1 ∧
    (run (some p) h).2 = 1 := by
  have hrun : run (some p) h =
      ([Event.print (connMsg p), Event.sessionOpen p, Event.sessionClose,
        Event.print (errorLine d)], 1) := by
    simp [run, withSession, ho, hp]
  rw [hrun]
  refine ⟨by simp [isUICall, List.filter], by simp, by simp, rfl⟩

/-- Witness for C5 at concrete inputs. -/
theorem open_failure_releases_witness :
    (run (some "addr") { happyHost with openSession := .error "refused" }).2 = 1 :=
  (open_failure_releases "addr" (by decide) "refused"
    { happyHost with openSession := .error "refused" } rfl).2.2.2

/-- C6: whichever UI-action call in the sequence raises — the greeting
notification, the folder query, the input box, the output-channel creation,
the quick pick, the second notification, or the status-bar call — and
whatever the description of the error, the trace is exactly the sequence
truncated at the raising call (so no later step executes), followed by the
session release and the `Error: <description>` line, and the program exits
with code 1. -/
theorem midrun_failure (p : String) (hp : p ≠ "") (d : String)
    (folders : List String) (name : String) (hname : name ≠ "")
    (choice : String) (hchoice : choice ≠ "")
    (nameOpt choiceOpt : Option String)
    (gw : Except String (List String)) (ib : Except String (Option String))
    (oc : Except String Unit) (qp : Except String (Option String))
    (i2 sb : Except String Unit) :
    run (some p) ⟨.ok (), .error d, gw, ib, oc, qp, i2, sb⟩ =
      ([Event.print (connMsg p), Event.sessionOpen p,
        Event.callShowInfo greeting,
        Event.sessionClose, Event.print (errorLine d)], 1) ∧
    run (some p) ⟨.ok (), .ok (), .error d, ib, oc, qp, i2, sb⟩ =
      ([Event.print (connMsg p), Event.sessionOpen p,
        Event.callShowInfo greeting, Event.callGetFolders,
        Event.sessionClose, Event.print (errorLine d)], 1) ∧
    run (some p) ⟨.ok (), .ok (), .ok folders, .error d, oc, qp, i2, sb⟩ =
      ([Event.print (connMsg p), Event.sessionOpen p,
        Event.callShowInfo greeting, Event.callGetFolders,
        Event.print (foldersLine folders),
        Event.callInputBox inputPrompt inputPlaceholder,
        Event.sessionClose, Event.print (errorLine d)], 1) ∧
    run (some p) (hostAfterInput folders (.ok (some name)) (.error d) qp i2 sb) =
      ([Event.print (connMsg p), Event.sessionOpen p,
        Event.callShowInfo greeting, Event.callGetFolders,
        Event.print (foldersLine folders),
        Event.callInputBox inputPrompt inputPlaceholder,
        Event.callCreateOutputChannel outputChannelName (ocText name) true,
        Event.sessionClose, Event.print (errorLine d)], 1) ∧
    run (some p) (hostAfterInput folders (.ok (some name)) (.ok ()) (.error d) i2 sb) =
      ([Event.print (connMsg p), Event.sessionOpen p,
        Event.callShowInfo greeting, Event.callGetFolders,
        Event.print (foldersLine folders),
        Event.callInputBox inputPrompt inputPlaceholder,
        Event.callCreateOutputChannel outputChannelName (ocText name) true,
        Event.callQuickPick pickItems (pickPlaceholder name),
        Event.sessionClose, Event.print (errorLine d)], 1) ∧
    run (some p) (hostAfterInput folders (.ok (some name)) (.ok ())
        (.ok (some choice)) (.error d) sb) =
      ([Event.print (connMsg p), Event.sessionOpen p,
        Event.callShowInfo greeting, Event.callGetFolders,
        Event.print (foldersLine folders),
        Event.callInputBox inputPrompt inputPlaceholder,
        Event.callCreateOutputChannel outputChannelName (ocText name) true,
        Event.callQuickPick pickItems (pickPlaceholder name),
        Event.callShowInfo (selectedMsg choice),
        Event.sessionClose, Event.print (errorLine d)], 1) ∧
    run (some p) ⟨.ok (), .ok (), .ok folders, .ok nameOpt, .ok (), .ok choiceOpt,
        .ok (), .error d⟩ =
      ([Event.print (connMsg p), Event.sessionOpen p,
        Event.callShowInfo greeting, Event.callGetFolders,
        Event.print (foldersLine folders),
        Event.callInputBox inputPrompt inputPlaceholder]
       ++ gatedBlock nameOpt choiceOpt
       ++ [Event.callStatusBar statusText statusMs,
           Event.sessionClose, Event.print (errorLine d)], 1) := by
  refine ⟨?_, ?_, ?_, ?_, ?_, ?_, ?_⟩
  · simp [run, withSession, body, nameBlock, hp]
  · simp [run, withSession, body, nameBlock, hp]
  · simp [run, withSession, body, nameBlock, hp]
  · simp [run, withSession, body, nameBlock, hostAfterInput, hp, hname]
  · simp [run, withSession, body, nameBlock, hostAfterInput, hp, hname]
  · simp [run, withSession, body, nameBlock, hostAfterInput, hp, hname, hchoice]
  · cases hn : pyTruthy nameOpt <;> cases hc : pyTruthy choiceOpt <;>
      simp [run, withSession, body, nameBlock, gatedBlock, hp, hn, hc]

/-- Witness for C6 at concrete inputs, on the quick-pick raising case. -/
theorem midrun_failure_witness :
    run (some "addr") (hostAfterInput ["/ws/a"] (.ok (some "Ada")) (.ok ())
        (.error "boom") (.ok ()) (.ok ())) =
      ([Event.print (connMsg "addr"), Event.sessionOpen "addr",
        Event.callShowInfo greeting, Event.callGetFolders,
        Event.print (foldersLine ["/ws/a"]),
        Event.callInputBox inputPrompt inputPlaceholder,
        Event.callCreateOutputChannel outputChannelName (ocText "Ada") true,
        Event.callQuickPick pickItems (pickPlaceholder "Ada"),
        Event.sessionClose, Event.print (errorLine "boom")], 1) :=
  (midrun_failure "addr" (by decide) "boom" ["/ws/a"] "Ada" (by decide)
    "Option B" (by decide) none none (.ok ["/ws/a"]) (.ok none) (.ok ())
    (.ok none) (.ok ()) (.ok ())).2.2.2.2.1

/-- C7: on any raising-free run that reaches an open session, the trace is
exactly the spec's fixed sequence: greeting notification, folder query and
print, input box, then — gated on the name — output channel and quick pick,
then — gated on the selection — the second notification, then
unconditionally the status-bar message and the local completion line; no
call is reordered or repeated, and the run exits with code 0. -/
theorem fixed_order (p : String) (hp : p ≠ "") (folders : List String)
    (nameOpt choiceOpt : Option String) :
    run (some p) (okHost folders nameOpt choiceOpt) =
      (specTrace p folders nameOpt choiceOpt, 0) := by
  cases hn : pyTruthy nameOpt <;> cases hc : pyTruthy choiceOpt <;>
    simp [run, withSession, body, nameBlock, okHost, specTrace, hp, hn, hc]

/-- Witness for C7 at concrete inputs. -/
theorem fixed_order_witness :
    run (some "addr") (okHost ["/ws/a"] (some "Ada") (some "Option B")) =
      (specTrace "addr" ["/ws/a"] (some "Ada") (some "Option B"), 0) :=
  fixed_order "addr" (by decide) ["/ws/a"] (some "Ada") (some "Option B")

/-- C8: an input-box result that is a genuine empty string is gated by
truthiness exactly like the cancelled signal: the whole run is identical to
the run where the input box was cancelled, and in particular (with the rest
of the calls succeeding) the output-channel and quick-pick requests are
never issued, the status-bar request still is, and the exit code is 0. -/
theorem empty_input_like_cancel (env : Option String) (h : Host) (p : String)
    (hp : p ≠ "") (folders : List String) (oc : Except String Unit)
    (qp : Except String (Option String)) (i2 : Except String Unit) :
    run env { h with showInputBox := .ok (some "") } =
      run env { h with showInputBox := .ok none } ∧
    (run (some p) (hostAfterInput folders (.ok (some "")) oc qp i2 (.ok ()))).1.filter
        isOutputChannelEv = [] ∧
    (run (some p) (hostAfterInput folders (.ok (some "")) oc qp i2 (.ok ()))).1.filter
        isQuickPickEv = [] ∧
    Event.callStatusBar statusText 5000 ∈
      (run (some p) (hostAfterInput folders (.ok (some "")) oc qp i2 (.ok ()))).1 ∧
    (run (some p) (hostAfterInput folders (.ok (some "")) oc qp i2 (.ok ()))).2 = 0 := by
  constructor
  · rcases h with ⟨o, i1, gw, ib, oc2, qp2, i22, sb⟩
    cases henv : pyTruthy env
    · simp [run, henv]
    · cases o <;> cases i1 <;> cases gw <;>
        simp [run, henv, withSession, body, nameBlock]
  · simp [run, withSession, body, nameBlock, hostAfterInput, hp, statusMs,
      isOutputChannelEv, isQuickPickEv, List.filter]

/-- Witness for C8 at concrete inputs. -/
theorem empty_input_like_cancel_witness :
    (run (some "addr") (hostAfterInput ["/ws/a"] (.ok (some "")) (.ok ()) (.ok none)
        (.ok ()) (.ok ()))).2 = 0 :=
  (empty_input_like_cancel (some "addr") happyHost "addr" (by decide) ["/ws/a"]
    (.ok ()) (.ok none) (.ok ())).2.2.2.2

/-- C9: the program is deterministic in the environment variable and the
host's responses: two runs with the same variable value and the same
response behaviour issue the same UI requests, print the same lines, and
exit with the same code. -/
theorem deterministic (env1 env2 : Option String) (h1 h2 : Host)
    (he : env1 = env2) (hh : h1 = h2) :
    (run env1 h1).1.filter isUICall = (run env2 h2).1.filter isUICall ∧
    (run env1 h1).1.filter isPrintEv = (run env2 h2).1.filter isPrintEv ∧
    (run env1 h1).2 = (run env2 h2).2 := by
  subst he
  subst hh
  exact ⟨rfl, rfl, rfl⟩

/-- Witness for C9 at concrete inputs. -/
theorem deterministic_witness :
    (run (some "addr") happyHost).1.filter isUICall =
      (run (some "addr") happyHost).1.filter isUICall :=
  (deterministic (some "addr") (some "addr") happyHost happyHost rfl rfl).1

/-- C10: whenever the environment variable holds a non-empty address the
`Connecting to VS Code via: <address>` line is the first event of the
trace, strictly before the session-acquisition attempt — whatever the host
then does — and when the variable is absent or empty no such line is ever
printed. -/
theorem connect_line_before_open (env : Option String) (h : Host) :
    (∀ p, env = some p → p ≠ "" →
      ∃ rest, (run env h).1 =
        Event.print (connMsg p) :: Event.sessionOpen p :: rest) ∧
    (pyTruthy env = false → ∀ s, Event.print (connMsg s) ∉ (run env h).1) := by
  constructor
  · rintro p rfl hp
    rcases hbody : body h with ⟨evs, res⟩
    cases ho : h.openSession with
    | error d =>
      exact ⟨[Event.sessionClose, Event.print (errorLine d)],
        by simp [run, withSession, ho, hp]⟩
    | ok u =>
      cases res with
      | error d =>
        refine ⟨evs ++ [Event.sessionClose, Event.print (errorLine d)], ?_⟩
        simp [run, withSession, ho, hp, hbody]
      | ok u2 =>
        refine ⟨evs ++ [Event.sessionClose], ?_⟩
        simp [run, withSession, ho, hp, hbody]
  · intro hfalse s hmem
    have hrun : run env h = (missingDiag, 1) := by simp [run, hfalse]
    rw [hrun] at hmem
    simp [missingDiag] at hmem
    rcases hmem with hmem | hmem
    · exact connMsg_ne_missing1 s hmem
    · exact connMsg_ne_missing2 s hmem

/-- Witness for C10 at concrete inputs. -/
theorem connect_line_before_open_witness :
    ∃ rest, (run (some "addr") happyHost).1 =
      Event.print (connMsg "addr") :: Event.sessionOpen "addr" :: rest :=
  (connect_line_before_open (some "addr") happyHost).1 "addr" rfl (by decide)

end Sockpuppet
